import Mathlib

/-!
Verification development for the resting-state spectral-slope pipeline
(src/rs/full/analysis/spectral_slopes.py).

The pipeline script is embedded shallowly: pure list functions replace the
Python loops, `Except` replaces raised exceptions, and rational numbers
stand in for floating-point samples.  The `Subject` class (subject.py) is
not part of the repository snapshot; its operations are modelled from the
specification and are marked as such in their doc comments.  External
collaborators (file parsing, the spectral transform itself, the randomized
RANSAC draw, the natural logarithm) are taken as explicit function
parameters, matching the way the specification scopes them out of the core.
-/

/-- Character-level model of the Python `str.split` on the slash character,
as used in `spectral_slopes.py` to derive a subject name from a file path.
Consecutive separators yield empty components, as in Python. -/
def splitSlash : List Char → List (List Char)
  | [] => [[]]
  | c :: cs =>
    if c = '/' then [] :: splitSlash cs
    else
      match splitSlash cs with
      | r :: rs => (c :: r) :: rs
      | [] => [[c]]

/-- Subject identity derived from a matfile path, per the source expression
`x.split('/')[-1][:-4]` (last path component, extension stripped). -/
def subjName (path : String) : String :=
  let comps := splitSlash path.data
  let last := comps.getLastD []
  String.mk (last.take (last.length - 4))

/-- Model of the glob pattern `*.ext` used by `get_filelist`: a file name
matches when it ends with a dot followed by the extension. -/
def hasExt (ext : String) (f : String) : Bool :=
  let p := '.' :: ext.data
  decide (p.length ≤ f.data.length) && (f.data.drop (f.data.length - p.length) == p)

/-- A directory tree: the files of one directory together with its
subdirectories.  This is the structure that `os.walk` traverses. -/
inductive DirTree : Type where
  | node (files : List String) (subdirs : List DirTree)

mutual

/-- The per-directory file lists in the order `os.walk` visits them:
the root directory first, then each subtree, depth-first. -/
def walk : DirTree → List (List String)
  | DirTree.node fs ds => fs :: walkList ds

/-- Walk of a list of sibling subtrees, in order. -/
def walkList : List DirTree → List (List String)
  | [] => []
  | d :: ds => walk d ++ walkList ds

end

/-- Embedding of `get_filelist` from `spectral_slopes.py`.  The source loops
over `os.walk` but returns during the first iteration, so only the file list
of the first visited directory (the import root) is ever globbed. -/
def get_filelist (t : DirTree) (ext : String) : List String :=
  ((walk t).headD []).filter (fun f => hasExt ext f)

/-- Errors of the per-subject pipeline.  `insufficientData` and
`insufficientSamples` are the explicit failure conditions of the
specification; `fitDegenerate` models a consensus fit with no inlier set;
`unknownFittingFunc` models rejection of an unknown selector by the fitter. -/
inductive PipeError : Type where
  | insufficientData
  | insufficientSamples
  | fitDegenerate
  | unknownFittingFunc
deriving DecidableEq

/-- Modelled from the spec: sample selection of the Slope Fitter
(`Subject.fit_slopes`, subject.py, not in the snapshot).  Keeps the PSD
samples whose frequency lies in the closed fitting range but outside the
open buffer band. -/
def selectFitSamples (lo hi bufLo bufHi : ℚ) (psd : List (ℚ × ℚ)) : List (ℚ × ℚ) :=
  psd.filter (fun s => decide (lo ≤ s.1 ∧ s.1 ≤ hi ∧ ¬(bufLo < s.1 ∧ s.1 < bufHi)))

/-- Modelled from the spec: ordinary least squares on rational samples, the
`linreg` fitting strategy.  Returns (slope, intercept); a degenerate design
(zero variance in x) returns (0, 0), a case the callers exclude. -/
def linreg (samples : List (ℚ × ℚ)) : ℚ × ℚ :=
  let n : ℚ := samples.length
  let sx := (samples.map (fun s => s.1)).sum
  let sy := (samples.map (fun s => s.2)).sum
  let sxx := (samples.map (fun s => s.1 * s.1)).sum
  let sxy := (samples.map (fun s => s.1 * s.2)).sum
  let den := n * sxx - sx * sx
  if den = 0 then (0, 0)
  else ((n * sxy - sx * sy) / den, (sy * sxx - sx * sxy) / den)

/-- Modelled from the spec: `Subject.fit_slopes` (subject.py, not in the
snapshot).  Filters the PSD record to the fitting range minus the buffer
band, log-transforms both axes (the logarithm `lg` is a parameter, as it is
transcendental), checks the two-sample minimum, and dispatches on the
fitting-function selector.  The randomized RANSAC draw is abstracted as the
function parameter `ransacFit`.  The slope record is a list whose element 0
is the slope, matching the `[0]` access in `get_subject_slopes`. -/
def fit_slopes (ransacFit : List (ℚ × ℚ) → Option (ℚ × ℚ)) (fitting_func : String)
    (lg : ℚ → ℚ) (bufLo bufHi lo hi : ℚ) (psd : List (ℚ × ℚ)) :
    Except PipeError (List ℚ) :=
  let samples := (selectFitSamples lo hi bufLo bufHi psd).map (fun s => (lg s.1, lg s.2))
  if samples.length < 2 then Except.error PipeError.insufficientSamples
  else if fitting_func = "linreg" then
    let r := linreg samples
    Except.ok [r.1, r.2]
  else if fitting_func = "ransac" then
    match ransacFit samples with
    | some r => Except.ok [r.1, r.2]
    | none => Except.error PipeError.fitDegenerate
  else Except.error PipeError.unknownFittingFunc

/-- Modelled from the spec: sequential non-overlapping segmentation of the
Windowing Engine — window k covers samples in [k*L, (k+1)*L), the trailing
partial window discarded. -/
def segmentWindows (L : Nat) (sig : List ℚ) : List (List ℚ) :=
  (List.range (sig.length / L)).map (fun k => (sig.drop (k * L)).take L)

/-- Modelled from the spec: windowing with the configured upper limit on the
window count (`nwins_upperlimit`, 0 meaning unlimited), earliest windows
retained. -/
def makeWindows (L : Nat) (sig : List ℚ) (cap : Nat) : List (List ℚ) :=
  let ws := segmentWindows L sig
  if cap = 0 then ws else ws.take cap

/-- Modelled from the spec: arithmetic mean of the per-window PSDs at each
frequency bin, frequencies taken from the first window. -/
def avgPsds (ps : List (List (ℚ × ℚ))) : List (ℚ × ℚ) :=
  match ps with
  | [] => []
  | p :: _ =>
    p.mapIdx (fun i pr =>
      (pr.1, ((ps.map (fun q => (q.getD i (0, 0)).2)).sum) / (ps.length : ℚ)))

/-- Modelled from the spec: the Spectral Estimator for one channel of one
condition — window, transform each window with the run-global spectral
estimate `psdOf`, and average; an empty window sequence is an explicit
insufficient-data error.  Also returns the window count, recorded as a
byproduct. -/
def psdOfChannel (psdOf : List ℚ → List (ℚ × ℚ)) (winLen cap : Nat) (sig : List ℚ) :
    Except PipeError (List (ℚ × ℚ) × Nat) :=
  let ws := makeWindows winLen sig cap
  if ws.isEmpty then Except.error PipeError.insufficientData
  else Except.ok (avgPsds (ws.map psdOf), ws.length)

/-- Modelled from the spec: `Subject.compute_ch_psds` (subject.py, not in
the snapshot) — per-channel averaged PSDs with window counts for both
conditions. -/
def compute_ch_psds (psdOf : List ℚ → List (ℚ × ℚ)) (winLen cap : Nat)
    (eyescSigs eyesoSigs : List (List ℚ)) :
    Except PipeError (List (List (ℚ × ℚ) × Nat) × List (List (ℚ × ℚ) × Nat)) := do
  let rcs ← eyescSigs.mapM (fun sig => psdOfChannel psdOf winLen cap sig)
  let ros ← eyesoSigs.mapM (fun sig => psdOfChannel psdOf winLen cap sig)
  return (rcs, ros)

/-- One per-channel record of the subject PSD table: the averaged PSDs and
the fitted slope records for both conditions.  This models the per-channel
dictionary `subj[i].psds[ch]` with its keys `eyesc`, `eyeso`,
`eyesc_slope`, `eyeso_slope`. -/
structure ChanRec : Type where
  eyesc : List (ℚ × ℚ)
  eyeso : List (ℚ × ℚ)
  eyesc_slope : List ℚ
  eyeso_slope : List ℚ
deriving DecidableEq

instance : Inhabited ChanRec := ⟨⟨[], [], [], []⟩⟩

/-- A fully processed subject, modelling the `Subject` object after
`compute_ch_psds` and `fit_slopes` have completed. -/
structure SubjectSt : Type where
  name : String
  group : String
  age : Int
  sex : String
  chans : List String
  nwins_eyesc : Nat
  nwins_eyeso : Nat
  psds : List ChanRec
deriving DecidableEq

instance : Inhabited SubjectSt := ⟨⟨"", "", 0, "", [], 0, 0, []⟩⟩

/-- The data the recording and event loaders provide for one subject:
the ordered channel list and, per channel, the continuous per-condition
signals (already split at the condition markers). -/
structure SubjData : Type where
  chans : List String
  eyescSigs : List (List ℚ)
  eyesoSigs : List (List ℚ)
deriving DecidableEq

/-- One row of the auxiliary metadata csv (`ya-oa.csv`). -/
structure Row : Type where
  SUBJECT : String
  CLASS : String
  AGE : Int
  SEX : String
deriving DecidableEq

instance : Inhabited Row := ⟨⟨"", "", 0, ""⟩⟩

/-- The run parameters of `main`, as set by the parameter block (lines
104-117 of the source) and optionally overridden by command-line flags. -/
structure Params : Type where
  montage : String
  recompute_psds : Bool
  psd_buffer_lofreq : ℚ
  psd_buffer_hifreq : ℚ
  fitting_func : String
  fitting_lofreq : ℚ
  fitting_hifreq : ℚ
  trial_protocol : String
  nwins_upperlimit : Nat
  import_path_csv : String
  import_dir_mat : String
  import_dir_evt : String
  export_dir : String
deriving DecidableEq

/-- The literal defaults of the source parameter block. -/
def defaultParams : Params :=
  { montage := "sensor-level"
    recompute_psds := true
    psd_buffer_lofreq := 7
    psd_buffer_hifreq := 14
    fitting_func := "ransac"
    fitting_lofreq := 2
    fitting_hifreq := 24
    trial_protocol := "match_OA"
    nwins_upperlimit := 0
    import_path_csv := "data/auxilliary/ya-oa.csv"
    import_dir_mat := "data/rs/full/source-dmn/MagCleanEvtFiltCAR-mat/"
    import_dir_evt := "data/rs/full/evt/clean/"
    export_dir := "data/runs/" }

/-- Command-line overrides, per the getopt loop of the source: `-m` sets the
montage, `-i` the import directory, `-o` the export directory, `-p` the
trial protocol.  (`-h` prints help and exits; run-directory creation and
parameter logging are I/O outside the core.) -/
def applyOpts (opts : List (String × String)) (p : Params) : Params :=
  opts.foldl
    (fun p o =>
      if o.1 = "-m" then { p with montage := o.2 }
      else if o.1 = "-i" then { p with import_dir_mat := o.2 }
      else if o.1 = "-o" then { p with export_dir := o.2 }
      else if o.1 = "-p" then { p with trial_protocol := o.2 }
      else p)
    p

/-- The external collaborators of the core, passed in as run-global
functions: the sample rate and window length of the spectral estimation,
the natural logarithm, the per-window spectral transform, the randomized
consensus fitter, and the recording loader. -/
structure RunCtx : Type where
  srate : Nat
  winLen : Nat
  lg : ℚ → ℚ
  psdOf : List ℚ → List (ℚ × ℚ)
  ransacFit : List (ℚ × ℚ) → Option (ℚ × ℚ)
  load : String → SubjData

/-- Modelled from the spec: `Subject.modify_trial_length a b` (subject.py,
not in the snapshot) restricts the usable signal to the sub-range from
second `a` to second `b`, per the scenario in which a 60 s recording
modified to the first 30 s yields half the windows. -/
def modify_trial_length (srate a b : Nat) (sig : List ℚ) : List ℚ :=
  (sig.drop (a * srate)).take ((b - a) * srate)

/-- Trial-length modification applied to every channel of both conditions,
once, with the literal bounds `(0, 30)` of the source call site. -/
def modifySubjData (srate : Nat) (d : SubjData) : SubjData :=
  { d with
    eyescSigs := d.eyescSigs.map (fun s => modify_trial_length srate 0 30 s)
    eyesoSigs := d.eyesoSigs.map (fun s => modify_trial_length srate 0 30 s) }

/-- Zip of per-channel PSDs and slope records into the subject PSD table. -/
def buildChanRecs : List (List (ℚ × ℚ)) → List (List (ℚ × ℚ)) →
    List (List ℚ) → List (List ℚ) → List ChanRec
  | pc :: pcs, po :: pos, sc :: scs, so :: sos =>
    { eyesc := pc, eyeso := po, eyesc_slope := sc, eyeso_slope := so }
      :: buildChanRecs pcs pos scs sos
  | _, _, _, _ => []

/-- The per-subject pipeline after the optional trial-length modification:
compute per-channel PSDs for both conditions (recording window counts), then
fit a slope per channel per condition with the run parameters, as in the
loop body of `main` (lines 212-225). -/
def pipelineRest (ctx : RunCtx) (p : Params) (name group sex : String) (age : Int)
    (d : SubjData) : Except PipeError SubjectSt := do
  let r ← compute_ch_psds ctx.psdOf ctx.winLen p.nwins_upperlimit d.eyescSigs d.eyesoSigs
  let rcs := r.1
  let ros := r.2
  let slC ← rcs.mapM (fun c =>
    fit_slopes ctx.ransacFit p.fitting_func ctx.lg p.psd_buffer_lofreq
      p.psd_buffer_hifreq p.fitting_lofreq p.fitting_hifreq c.1)
  let slO ← ros.mapM (fun c =>
    fit_slopes ctx.ransacFit p.fitting_func ctx.lg p.psd_buffer_lofreq
      p.psd_buffer_hifreq p.fitting_lofreq p.fitting_hifreq c.1)
  return { name := name
           group := group
           age := age
           sex := sex
           chans := d.chans
           nwins_eyesc := (rcs.map (fun c => c.2)).headD 0
           nwins_eyeso := (ros.map (fun c => c.2)).headD 0
           psds := buildChanRecs (rcs.map (fun c => c.1)) (ros.map (fun c => c.1)) slC slO }

/-- One subject of the processing loop: the trial-length modification is
applied exactly when the trial protocol is `match_OA` and the subject group
is `DANE` (source lines 210-211), then the rest of the pipeline runs. -/
def processSubject (ctx : RunCtx) (p : Params) (name group sex : String) (age : Int)
    (d : SubjData) : Except PipeError SubjectSt :=
  pipelineRest ctx p name group sex age
    (if p.trial_protocol = "match_OA" ∧ group = "DANE" then modifySubjData ctx.srate d else d)

/-- First metadata row matching a subject name, modelling the dataframe
lookup `df[df.SUBJECT == subj_name].CLASS.values[0]` and its siblings. -/
def lookupRow (rows : List Row) (s : String) : Row :=
  (rows.filter (fun r => r.SUBJECT = s)).headD default

/-- The loop body of `main` for one matfile: derive the subject name, look
up its metadata, load its recording, and run the per-subject pipeline. -/
def subjectOfFile (ctx : RunCtx) (p : Params) (rows : List Row) (f : String) :
    Except PipeError SubjectSt :=
  let name := subjName f
  let r := lookupRow rows name
  processSubject ctx p name r.CLASS r.SEX r.AGE (ctx.load f)

/-- Slope record selected by the string key `slope_type + "_slope"`, as in
`get_subject_slopes`; only the two keys present in the table resolve. -/
def slopeRecOf (c : ChanRec) (slope_type : String) : List ℚ :=
  if slope_type = "eyesc" then c.eyesc_slope
  else if slope_type = "eyeso" then c.eyeso_slope
  else []

/-- Embedding of `get_subject_slopes` from `spectral_slopes.py`: for every
subject index in 0..nbsubj-1 in order, element 0 of the slope record of the
given channel.  The subject dictionary keyed 0..nbsubj-1 is modelled as a
list whose length is `nbsubj`. -/
def get_subject_slopes (subjs : List SubjectSt) (ch : Nat) (slope_type : String) : List ℚ :=
  subjs.map (fun s => (slopeRecOf (s.psds.getD ch default) slope_type).getD 0 0)

/-- A cell of the exported table (the csv holds strings, integers, counts
and slopes). -/
inductive Cell : Type where
  | s (v : String)
  | i (v : Int)
  | n (v : Nat)
  | q (v : ℚ)
deriving DecidableEq

/-- Embedding of the dataframe assembly of `main` (lines 237-248): the
metadata columns in their fixed order, then one slope column per channel for
the eyes-closed condition in channel-list order, then one per channel for
the eyes-open condition.  Channel names come from subject 0, as in the
source. -/
def buildTable (subjs : List SubjectSt) : List (String × List Cell) :=
  let s0 := subjs.headD default
  [("SUBJECT", subjs.map (fun s => Cell.s s.name)),
   ("CLASS", subjs.map (fun s => Cell.s s.group)),
   ("AGE", subjs.map (fun s => Cell.i s.age)),
   ("NWINDOWS_EYESC", subjs.map (fun s => Cell.n s.nwins_eyesc)),
   ("NWINDOWS_EYESO", subjs.map (fun s => Cell.n s.nwins_eyeso))]
  ++ (List.range s0.chans.length).map
       (fun ch => (s0.chans.getD ch ("") ++ "_EYESC", (get_subject_slopes subjs ch ("eyesc")).map Cell.q))
  ++ (List.range s0.chans.length).map
       (fun ch => (s0.chans.getD ch ("") ++ "_EYESO", (get_subject_slopes subjs ch ("eyeso")).map Cell.q))

/-- The subjects discovered on disk but absent from the metadata csv, as
computed at lines 187-188 of the source (`missing = subjects - set(df.SUBJECT)`);
set difference is modelled as a deduplicated filtered list. -/
def missingList (matfiles : List String) (rows : List Row) : List String :=
  ((matfiles.map subjName).filter (fun s => rows.all (fun r => r.SUBJECT != s))).dedup

/-- Run-level outcomes.  The source raises exactly one pre-run error, the
missing-metadata exception; `configError` is representable here only so the
absence of any configuration validation is statable, and `pipe` wraps a
pipeline exception escaping the subject loop. -/
inductive RunError : Type where
  | missingMetadata (subjects : List String)
  | configError (msg : String)
  | pipe (e : PipeError)
deriving DecidableEq

/-- State of the subject-processing loop of `main`: the run parameters, the
index of the next matfile, the subjects processed so far, and a raised
exception if any. -/
structure RunState : Type where
  params : Params
  idx : Nat
  subjs : List SubjectSt
  err : Option PipeError

/-- One iteration of the subject loop (source lines 198-225): if an
exception was raised the run is aborted; otherwise the next matfile, if
any, is processed and appended. -/
def runStep (ctx : RunCtx) (matfiles : List String) (rows : List Row) (s : RunState) :
    RunState :=
  if s.err.isSome then s
  else
    match matfiles[s.idx]? with
    | none => s
    | some f =>
      match subjectOfFile ctx s.params rows f with
      | Except.error e => { s with err := some e }
      | Except.ok st => { s with idx := s.idx + 1, subjs := s.subjs ++ [st] }

/-- Iterated subject loop. -/
def runLoop (ctx : RunCtx) (matfiles : List String) (rows : List Row) :
    Nat → RunState → RunState
  | 0, s => s
  | n + 1, s => runLoop ctx matfiles rows n (runStep ctx matfiles rows s)

/-- Outcome of a finished loop state: the raised exception, or the subject
list. -/
def extractRun (s : RunState) : Except PipeError (List SubjectSt) :=
  match s.err with
  | some e => Except.error e
  | none => Except.ok s.subjs

/-- The whole subject loop of `main`, one iteration per discovered
matfile. -/
def processAll (ctx : RunCtx) (p : Params) (matfiles : List String) (rows : List Row) :
    Except PipeError (List SubjectSt) :=
  extractRun (runLoop ctx matfiles rows matfiles.length ⟨p, 0, [], none⟩)

/-- Sequential processing with fail-fast, the functional reading of the
subject loop; proved equal to the state-machine form below. -/
def processList {α β ε : Type} (g : α → Except ε β) : List α → Except ε (List β)
  | [] => Except.ok []
  | a :: as =>
    match g a with
    | Except.error e => Except.error e
    | Except.ok b =>
      match processList g as with
      | Except.error e => Except.error e
      | Except.ok bs => Except.ok (b :: bs)

/-- The run after initialization (source lines 179-255): check that every
discovered recording has metadata — a nonempty missing set aborts the run
before any subject is processed — then process every subject and assemble
the table. -/
def mainRun (ctx : RunCtx) (p : Params) (matfiles : List String) (rows : List Row) :
    Except RunError (List (String × List Cell)) :=
  let missing := missingList matfiles rows
  if missing.isEmpty then
    match processAll ctx p matfiles rows with
    | Except.error e => Except.error (RunError.pipe e)
    | Except.ok subjs => Except.ok (buildTable subjs)
  else Except.error (RunError.missingMetadata missing)

/-- The full script: initialize parameters from defaults and command-line
flags, discover the matfiles, and run. -/
def spectral_slopes_run (ctx : RunCtx) (opts : List (String × String)) (tree : DirTree)
    (rows : List Row) : Except RunError (List (String × List Cell)) :=
  mainRun ctx (applyOpts opts defaultParams) (get_filelist tree ("mat")) rows

instance {ε α : Type} [DecidableEq ε] [DecidableEq α] : DecidableEq (Except ε α) :=
  fun a b =>
    match a, b with
    | Except.error e, Except.error f =>
      if h : e = f then isTrue (by rw [h]) else isFalse (by intro hc; cases hc; exact h rfl)
    | Except.ok x, Except.ok y =>
      if h : x = y then isTrue (by rw [h]) else isFalse (by intro hc; cases hc; exact h rfl)
    | Except.error _, Except.ok _ => isFalse (by intro hc; cases hc)
    | Except.ok _, Except.error _ => isFalse (by intro hc; cases hc)

/-- A small concrete PSD record used by the concrete runs below: frequencies
2, 3, 20 and 24 Hz, all inside the default fitting range and outside the
default buffer band. -/
def psd0 : List (ℚ × ℚ) := [(2, 8), (3, 7), (20, 3), (24, 2)]

/-- A 20-sample constant test signal. -/
def sig20 : List ℚ := List.replicate 20 1

/-- A 5-sample constant test signal, shorter than one window. -/
def sig5 : List ℚ := List.replicate 5 1

/-- Recording data of a one-channel test subject. -/
def data0 : SubjData := ⟨["A1"], [sig20], [sig20]⟩

/-- A concrete run context: 1 Hz sample rate, 10-sample windows, identity in
place of the logarithm, a constant spectral estimate, a consensus fitter
that always returns slope 1 and intercept 0, and a loader returning the
one-channel subject. -/
def ctx0 : RunCtx := ⟨1, 10, id, fun _ => psd0, fun _ => some (1, 0), fun _ => data0⟩

/-- A one-subject discovered file list. -/
def mf1 : List String := ["d/S1.mat"]

/-- A two-subject discovered file list. -/
def mf0 : List String := ["d/S1.mat", "d/S2.mat"]

/-- Metadata covering subject S1 only. -/
def rows1 : List Row := [⟨"S1", "CTRL", 25, "F"⟩]

/-- Parameters violating the buffer nesting (buffer band [30, 40] lies
outside the fitting range [2, 24]) and naming an unknown trial protocol. -/
def badParams : Params :=
  { defaultParams with
    psd_buffer_lofreq := 30
    psd_buffer_hifreq := 40
    trial_protocol := "bogus" }

/-- Recording data of a subject with an empty montage (no channels). -/
def dataZ : SubjData := ⟨[], [], []⟩

/-- The run context loading the empty-montage subject. -/
def ctxZ : RunCtx := { ctx0 with load := fun _ => dataZ }

/-- The processed form of the empty-montage subject S1. -/
def subjZ : SubjectSt := ⟨"S1", "CTRL", 25, "F", [], 0, 0, []⟩

/-- A processed one-channel subject used for table-shape statements. -/
def subjW : SubjectSt := ⟨"S1", "CTRL", 25, "F", ["A1"], 2, 2, [⟨psd0, psd0, [1, 0], [1, 0]⟩]⟩

/-- The concrete PSD record of the buffer-spike scenario: fitting range
[2, 24], buffer [7, 14], one sample at 10 Hz inside the buffer. -/
def psdA : List (ℚ × ℚ) := [(2, 8), (3, 7), (10, 7), (20, 3), (24, 2)]

/-- The same record with an artificial spike at 10 Hz, inside the buffer. -/
def psdB : List (ℚ × ℚ) := [(2, 8), (3, 7), (10, 999), (20, 3), (24, 2)]

theorem selectFitSamples_congr (lo hi bufLo bufHi : ℚ) :
    ∀ {psd1 psd2 : List (ℚ × ℚ)},
    List.Forall₂ (fun a b => a = b ∨ (a.1 = b.1 ∧ bufLo < a.1 ∧ a.1 < bufHi)) psd1 psd2 →
    selectFitSamples lo hi bufLo bufHi psd1 = selectFitSamples lo hi bufLo bufHi psd2 := by
  intro psd1 psd2 h
  induction h with
  | nil => rfl
  | @cons a b l1 l2 hab htail ih =>
    simp only [selectFitSamples, List.filter_cons] at ih ⊢
    rcases hab with rfl | ⟨hf, h1, h2⟩
    · rw [ih]
    · have ha : decide (lo ≤ a.1 ∧ a.1 ≤ hi ∧ ¬(bufLo < a.1 ∧ a.1 < bufHi)) = false := by
        simp [h1, h2]
      have hb : decide (lo ≤ b.1 ∧ b.1 ≤ hi ∧ ¬(bufLo < b.1 ∧ b.1 < bufHi)) = false := by
        rw [← hf]
        simp [h1, h2]
      simp only [ha, hb, Bool.false_eq_true, if_false]
      exact ih

/-- Claim C1: the slope fit operates on exactly the PSD samples with
frequency in [lo, hi] but not in (bufLo, bufHi), both axes log-transformed,
so two PSD records that differ only at frequencies inside the buffer band
produce identical fit results. -/
theorem fit_slopes_buffer_exclusion (ransacFit : List (ℚ × ℚ) → Option (ℚ × ℚ))
    (ff : String) (lg : ℚ → ℚ) (bufLo bufHi lo hi : ℚ) (psd1 psd2 : List (ℚ × ℚ))
    (h : List.Forall₂ (fun a b => a = b ∨ (a.1 = b.1 ∧ bufLo < a.1 ∧ a.1 < bufHi)) psd1 psd2) :
    (∀ q ∈ selectFitSamples lo hi bufLo bufHi psd1,
        q ∈ psd1 ∧ lo ≤ q.1 ∧ q.1 ≤ hi ∧ ¬(bufLo < q.1 ∧ q.1 < bufHi))
    ∧ (∀ q ∈ psd1, lo ≤ q.1 → q.1 ≤ hi → ¬(bufLo < q.1 ∧ q.1 < bufHi) →
        q ∈ selectFitSamples lo hi bufLo bufHi psd1)
    ∧ fit_slopes ransacFit ff lg bufLo bufHi lo hi psd1
        = fit_slopes ransacFit ff lg bufLo bufHi lo hi psd2 := by
  refine ⟨?_, ?_, ?_⟩
  · intro q hq
    simp only [selectFitSamples] at hq
    have h2 := List.mem_filter.mp hq
    exact ⟨h2.1, of_decide_eq_true h2.2⟩
  · intro q hq h1 h2 h3
    simp only [selectFitSamples]
    exact List.mem_filter.mpr ⟨hq, decide_eq_true ⟨h1, h2, h3⟩⟩
  · unfold fit_slopes
    rw [selectFitSamples_congr lo hi bufLo bufHi h]

/-- Witness for C1 at the buffer-spike scenario of the specification:
fitting range [2, 24], buffer [7, 14], spike at 10 Hz. -/
theorem fit_slopes_buffer_exclusion_witness :
    fit_slopes ctx0.ransacFit ("ransac") id 7 14 2 24 psdA
      = fit_slopes ctx0.ransacFit ("ransac") id 7 14 2 24 psdB := by
  have hf : List.Forall₂ (fun a b => a = b ∨ (a.1 = b.1 ∧ (7 : ℚ) < a.1 ∧ a.1 < 14)) psdA psdB := by
    simp only [psdA, psdB]
    refine List.Forall₂.cons (Or.inl rfl) ?_
    refine List.Forall₂.cons (Or.inl rfl) ?_
    refine List.Forall₂.cons (Or.inr ⟨rfl, by norm_num, by norm_num⟩) ?_
    refine List.Forall₂.cons (Or.inl rfl) ?_
    exact List.Forall₂.cons (Or.inl rfl) List.Forall₂.nil
  exact (fit_slopes_buffer_exclusion ctx0.ransacFit ("ransac") id 7 14 2 24 psdA psdB hf).2.2

/-- Claim C2: windowing produces min(floor(T/L), cap) windows when the cap
is positive and floor(T/L) windows when the cap is 0, and truncation keeps
the earliest windows in temporal order (the capped sequence is a prefix of
the uncapped segmentation). -/
theorem makeWindows_count_and_order (L cap : Nat) (sig : List ℚ) :
    (makeWindows L sig cap).length
      = (if cap = 0 then sig.length / L else min (sig.length / L) cap)
    ∧ makeWindows L sig cap
      = (segmentWindows L sig).take
          (if cap = 0 then sig.length / L else min (sig.length / L) cap) := by
  have hlen : (segmentWindows L sig).length = sig.length / L := by
    simp [segmentWindows]
  constructor
  · by_cases h : cap = 0 <;> simp [makeWindows, h, hlen, Nat.min_comm]
  · by_cases h : cap = 0
    · subst h
      have hm : makeWindows L sig 0 = segmentWindows L sig := by simp [makeWindows]
      rw [hm, if_pos rfl, ← hlen, List.take_length]
    · simp only [makeWindows, if_neg h]
      rw [← hlen, Nat.min_comm, ← List.take_take, List.take_length]

/-- Claim C5: a signal shorter than one window yields zero windows, zero
windows is an explicit insufficient-data error of the spectral estimation,
and fewer than two post-exclusion samples is an explicit
insufficient-samples error of the fit. -/
theorem pipeline_insufficient_errors (psdOf : List ℚ → List (ℚ × ℚ)) (winLen cap : Nat)
    (sig : List ℚ) (ransacFit : List (ℚ × ℚ) → Option (ℚ × ℚ)) (ff : String) (lg : ℚ → ℚ)
    (bufLo bufHi lo hi : ℚ) (psd : List (ℚ × ℚ)) :
    (sig.length < winLen → makeWindows winLen sig cap = [])
    ∧ (makeWindows winLen sig cap = [] →
        psdOfChannel psdOf winLen cap sig = Except.error PipeError.insufficientData)
    ∧ ((selectFitSamples lo hi bufLo bufHi psd).length < 2 →
        fit_slopes ransacFit ff lg bufLo bufHi lo hi psd
          = Except.error PipeError.insufficientSamples) := by
  refine ⟨?_, ?_, ?_⟩
  · intro h
    have hz : sig.length / winLen = 0 := Nat.div_eq_of_lt h
    simp [makeWindows, segmentWindows, hz]
  · intro h
    simp [psdOfChannel, h]
  · intro h
    have hs : ((selectFitSamples lo hi bufLo bufHi psd).map
        (fun s => (lg s.1, lg s.2))).length < 2 := by
      simpa using h
    simp only [fit_slopes]
    rw [if_pos hs]

/-- Witness for C5: a 5-sample signal with 10-sample windows raises the
insufficient-data error, and a buffer band covering the whole fitting range
raises the insufficient-samples error. -/
theorem pipeline_insufficient_errors_witness :
    psdOfChannel ctx0.psdOf 10 0 sig5 = Except.error PipeError.insufficientData
    ∧ fit_slopes ctx0.ransacFit ("ransac") id 0 100 2 24 psd0
        = Except.error PipeError.insufficientSamples := by
  constructor
  · exact (pipeline_insufficient_errors ctx0.psdOf 10 0 sig5 ctx0.ransacFit ("ransac") id
      0 100 2 24 psd0).2.1
      ((pipeline_insufficient_errors ctx0.psdOf 10 0 sig5 ctx0.ransacFit ("ransac") id
        0 100 2 24 psd0).1 (by decide))
  · exact (pipeline_insufficient_errors ctx0.psdOf 10 0 sig5 ctx0.ransacFit ("ransac") id
      0 100 2 24 psd0).2.2 (by decide)

/-- Claim C6: the trial-length modification is applied, exactly once and
before windowing and PSD computation, precisely when the trial protocol is
the equalize policy `match_OA` and the subject group is the target group
`DANE`; any other policy or group leaves the raw signal unmodified. -/
theorem trial_modification_iff (ctx : RunCtx) (p : Params) (name group sex : String)
    (age : Int) (d : SubjData) :
    (p.trial_protocol = "match_OA" ∧ group = "DANE" →
      processSubject ctx p name group sex age d
        = pipelineRest ctx p name group sex age (modifySubjData ctx.srate d))
    ∧ (¬(p.trial_protocol = "match_OA" ∧ group = "DANE") →
      processSubject ctx p name group sex age d
        = pipelineRest ctx p name group sex age d) := by
  constructor <;> intro h <;> simp [processSubject, h]

/-- Witness for C6: with the default parameters, a DANE-group subject is
processed from the modified signal. -/
theorem trial_modification_iff_witness :
    processSubject ctx0 defaultParams ("S1") ("DANE") ("F") 25 data0
      = pipelineRest ctx0 defaultParams ("S1") ("DANE") ("F") 25
          (modifySubjData ctx0.srate data0) :=
  (trial_modification_iff ctx0 defaultParams ("S1") ("DANE") ("F") 25 data0).1 ⟨rfl, rfl⟩

/-- Claim C9: `get_filelist` returns exactly the matching files of the
first directory the walk visits; matching files in deeper subdirectories
are never returned, because the function returns during the first loop
iteration. -/
theorem get_filelist_first_dir_only (fs : List String) (ds : List DirTree) (ext : String) :
    get_filelist (DirTree.node fs ds) ext = fs.filter (fun f => hasExt ext f)
    ∧ (∀ f, f ∈ get_filelist (DirTree.node fs ds) ext → f ∈ fs)
    ∧ (∀ d, d ∈ ds → ∀ f, f ∈ (walk d).flatten → ¬ f ∈ fs →
        ¬ f ∈ get_filelist (DirTree.node fs ds) ext) := by
  have h1 : get_filelist (DirTree.node fs ds) ext = fs.filter (fun f => hasExt ext f) := by
    simp [get_filelist, walk]
  refine ⟨h1, ?_, ?_⟩
  · intro f hf
    rw [h1] at hf
    exact (List.mem_filter.mp hf).1
  · intro d _ f _ hnot hmem
    rw [h1] at hmem
    exact hnot (List.mem_filter.mp hmem).1

/-- Witness for C9: a `.mat` file that lives only in a subdirectory is not
returned, while the matching top-level file is. -/
theorem get_filelist_first_dir_only_witness :
    ¬ ("sub.mat") ∈ get_filelist (DirTree.node ["top.mat", "top.txt"]
        [DirTree.node ["sub.mat"] []]) ("mat") := by
  refine (get_filelist_first_dir_only ["top.mat", "top.txt"]
      [DirTree.node ["sub.mat"] []] ("mat")).2.2
    (DirTree.node ["sub.mat"] []) (List.mem_singleton.mpr rfl) ("sub.mat") ?_ (by decide)
  simp [walk, walkList]

theorem mem_missingList (matfiles : List String) (rows : List Row) (s : String) :
    s ∈ missingList matfiles rows ↔
      ((∃ f ∈ matfiles, subjName f = s) ∧ ∀ r ∈ rows, r.SUBJECT ≠ s) := by
  simp only [missingList, List.mem_dedup, List.mem_filter, List.mem_map, List.all_eq_true]
  constructor
  · rintro ⟨⟨f, hf, rfl⟩, hall⟩
    exact ⟨⟨f, hf, rfl⟩, fun r hr => by simpa using hall r hr⟩
  · rintro ⟨⟨f, hf, rfl⟩, hall⟩
    exact ⟨⟨f, hf, rfl⟩, fun r hr => by simpa using hall r hr⟩

theorem missingList_eq_nil (matfiles : List String) (rows : List Row) :
    missingList matfiles rows = [] ↔
      ∀ f ∈ matfiles, ∃ r ∈ rows, r.SUBJECT = subjName f := by
  constructor
  · intro h f hf
    by_contra hc
    push_neg at hc
    have hm : subjName f ∈ missingList matfiles rows :=
      (mem_missingList matfiles rows (subjName f)).mpr ⟨⟨f, hf, rfl⟩, hc⟩
    rw [h] at hm
    exact absurd hm (List.not_mem_nil _)
  · intro h
    by_contra hc
    obtain ⟨s, hs⟩ := List.exists_mem_of_ne_nil _ hc
    rw [mem_missingList] at hs
    obtain ⟨⟨f, hf, rfl⟩, hall⟩ := hs
    obtain ⟨r, hr, hre⟩ := h f hf
    exact hall r hr hre

/-- Claim C3: a discovered recording without metadata aborts the whole run
with an error enumerating exactly the offending subject identities, before
any subject is processed (the error is independent of the pipeline context
and parameters) and with no result output; a fully covered run never raises
this error. -/
theorem missing_metadata_aborts (ctx : RunCtx) (p : Params) (matfiles : List String)
    (rows : List Row) :
    ((∀ f ∈ matfiles, ∃ r ∈ rows, r.SUBJECT = subjName f) →
      ∀ m, mainRun ctx p matfiles rows ≠ Except.error (RunError.missingMetadata m))
    ∧ ((∃ f ∈ matfiles, ∀ r ∈ rows, r.SUBJECT ≠ subjName f) →
      ∃ m, (∀ s, s ∈ m ↔ ((∃ f ∈ matfiles, subjName f = s) ∧ ∀ r ∈ rows, r.SUBJECT ≠ s))
        ∧ ∀ (ctx2 : RunCtx) (p2 : Params),
            mainRun ctx2 p2 matfiles rows = Except.error (RunError.missingMetadata m)) := by
  constructor
  · intro hall m
    have hnil : missingList matfiles rows = [] := (missingList_eq_nil matfiles rows).mpr hall
    simp only [mainRun, hnil, List.isEmpty_nil, if_true]
    cases processAll ctx p matfiles rows <;> simp
  · rintro ⟨f, hf, hnone⟩
    have hmem : subjName f ∈ missingList matfiles rows :=
      (mem_missingList matfiles rows (subjName f)).mpr ⟨⟨f, hf, rfl⟩, hnone⟩
    have hne : (missingList matfiles rows).isEmpty = false := by
      rcases hl : missingList matfiles rows with _ | ⟨a, l⟩
      · rw [hl] at hmem
        exact absurd hmem (List.not_mem_nil _)
      · rfl
    refine ⟨missingList matfiles rows, fun s => mem_missingList matfiles rows s, ?_⟩
    intro ctx2 p2
    simp [mainRun, hne]

/-- Witness for C3: two discovered subjects, one absent from the metadata. -/
theorem missing_metadata_aborts_witness :
    ∃ m, (∀ s, s ∈ m ↔ ((∃ f ∈ mf0, subjName f = s) ∧ ∀ r ∈ rows1, r.SUBJECT ≠ s))
      ∧ ∀ (ctx2 : RunCtx) (p2 : Params),
          mainRun ctx2 p2 mf0 rows1 = Except.error (RunError.missingMetadata m) :=
  (missing_metadata_aborts ctx0 defaultParams mf0 rows1).2
    ⟨"d/S2.mat", by decide, by decide⟩

/-- Counterexample for C4: parameters whose buffer band [30, 40] violates
the nesting `lo <= buf_lo <= buf_hi <= hi` for the fitting range [2, 24]
and whose trial-policy selector is unknown, yet the run completes
successfully — no configuration error is detected before (or after) subject
processing. -/
theorem no_config_validation_counterexample :
    ¬(badParams.fitting_lofreq ≤ badParams.psd_buffer_lofreq
        ∧ badParams.psd_buffer_lofreq ≤ badParams.psd_buffer_hifreq
        ∧ badParams.psd_buffer_hifreq ≤ badParams.fitting_hifreq)
    ∧ badParams.trial_protocol ≠ "match_OA"
    ∧ badParams.trial_protocol ≠ "none"
    ∧ (mainRun ctx0 badParams mf1 rows1).isOk = true :=
  ⟨by decide, by decide, by decide, by decide⟩

/-- Claim C4 (amended): the code performs no configuration validation: a
run can only fail with the missing-metadata error or a pipeline error, never
with a configuration error, whatever the frequency ordering or selectors;
an unrecognized trial-policy selector silently skips the trial-length
modification instead of being rejected. -/
theorem no_config_validation (ctx : RunCtx) (p : Params) (matfiles : List String)
    (rows : List Row) (name group sex : String) (age : Int) (d : SubjData) :
    (∀ msg, mainRun ctx p matfiles rows ≠ Except.error (RunError.configError msg))
    ∧ (p.trial_protocol ≠ "match_OA" →
        processSubject ctx p name group sex age d
          = pipelineRest ctx p name group sex age d) := by
  constructor
  · intro msg
    unfold mainRun
    by_cases h : (missingList matfiles rows).isEmpty
    · simp only [if_pos h]
      cases processAll ctx p matfiles rows <;> simp
    · simp only [if_neg h]
      simp
  · intro h
    have hn : ¬(p.trial_protocol = "match_OA" ∧ group = "DANE") := fun hc => h hc.1
    simp [processSubject, hn]

/-- Witness for C4 at the invalid configuration: the run rejects nothing
and the bogus trial policy leaves the signal unmodified. -/
theorem no_config_validation_witness :
    mainRun ctx0 badParams mf1 rows1 ≠ Except.error (RunError.configError ("x"))
    ∧ processSubject ctx0 badParams ("S1") ("CTRL") ("F") 25 data0
        = pipelineRest ctx0 badParams ("S1") ("CTRL") ("F") 25 data0 :=
  ⟨(no_config_validation ctx0 badParams mf1 rows1 ("S1") ("CTRL") ("F") 25 data0).1 ("x"),
   (no_config_validation ctx0 badParams mf1 rows1 ("S1") ("CTRL") ("F") 25 data0).2 (by decide)⟩

theorem map_range_fst_col (l : List String) (suf : String) (g : Nat → List Cell) :
    List.map Prod.fst (List.map (fun ch => (l.getD ch ("") ++ suf, g ch)) (List.range l.length))
      = l.map (fun c => c ++ suf) := by
  rw [List.map_map]
  apply List.ext_getElem
  · simp
  · intro i h1 h2
    simp only [List.getElem_map, List.getElem_range, Function.comp_apply]
    rw [List.getD_eq_getElem l ("") (by simpa using h2)]

/-- Counterexample for C7: the table of a concrete run has no SEX column at
all — its columns are SUBJECT, CLASS, AGE, the two window counts, and the
per-channel slope columns. -/
theorem table_columns_counterexample :
    (mainRun ctx0 defaultParams mf1 rows1).toOption.map (fun t => t.map Prod.fst)
      = some ["SUBJECT", "CLASS", "AGE", "NWINDOWS_EYESC", "NWINDOWS_EYESO",
              "A1_EYESC", "A1_EYESO"]
    ∧ ¬ ("SEX") ∈ ["SUBJECT", "CLASS", "AGE", "NWINDOWS_EYESC", "NWINDOWS_EYESO",
              "A1_EYESC", "A1_EYESO"] :=
  ⟨by decide, by decide⟩

/-- Claim C7 (amended): for a nonempty run, the final table has one row per
subject in every column, and its column order is the metadata columns
SUBJECT, CLASS, AGE, NWINDOWS_EYESC, NWINDOWS_EYESO (sex is loaded but not
exported), then one eyes-closed slope column per channel in channel-list
order, then one eyes-open slope column per channel in channel-list order. -/
theorem table_columns (subjs : List SubjectSt) (_hne : subjs ≠ []) :
    (buildTable subjs).map Prod.fst
      = ["SUBJECT", "CLASS", "AGE", "NWINDOWS_EYESC", "NWINDOWS_EYESO"]
        ++ (subjs.headD default).chans.map (fun c => c ++ "_EYESC")
        ++ (subjs.headD default).chans.map (fun c => c ++ "_EYESO")
    ∧ ∀ col ∈ buildTable subjs, col.2.length = subjs.length := by
  constructor
  · simp only [buildTable, List.map_append]
    rw [map_range_fst_col, map_range_fst_col]
    simp
  · intro col hcol
    simp only [buildTable, List.mem_append, List.mem_cons, List.mem_map,
      List.mem_range, List.not_mem_nil, or_false] at hcol
    rcases hcol with (((rfl | rfl | rfl | rfl | rfl) | ⟨ch, _, rfl⟩) | ⟨ch, _, rfl⟩) <;>
      simp [get_subject_slopes]

/-- Witness for C7 at a concrete one-channel subject list. -/
theorem table_columns_witness :
    (buildTable [subjW]).map Prod.fst
      = ["SUBJECT", "CLASS", "AGE", "NWINDOWS_EYESC", "NWINDOWS_EYESO"]
        ++ ([subjW].headD default).chans.map (fun c => c ++ "_EYESC")
        ++ ([subjW].headD default).chans.map (fun c => c ++ "_EYESO") :=
  (table_columns [subjW] (by decide)).1

/-- Claim C8: the run parameters are never mutated once the subject loop
starts: one loop step, and any number of loop steps, leave every field of
the parameter record exactly as it was. -/
theorem params_not_mutated (ctx : RunCtx) (matfiles : List String) (rows : List Row)
    (n : Nat) (s : RunState) :
    (runStep ctx matfiles rows s).params = s.params
    ∧ (runLoop ctx matfiles rows n s).params = s.params := by
  have hstep : ∀ t : RunState, (runStep ctx matfiles rows t).params = t.params := by
    intro t
    unfold runStep
    split
    · rfl
    · split
      · rfl
      · split <;> rfl
  have hloop : ∀ (k : Nat) (t : RunState),
      (runLoop ctx matfiles rows k t).params = t.params := by
    intro k
    induction k with
    | zero => intro t; rfl
    | succ k ih =>
      intro t
      show (runLoop ctx matfiles rows k (runStep ctx matfiles rows t)).params = t.params
      rw [ih, hstep]
  exact ⟨hstep s, hloop n s⟩

theorem runStep_stuck (ctx : RunCtx) (mf : List String) (rows : List Row) (s : RunState)
    (h : s.err.isSome) : runStep ctx mf rows s = s := by
  unfold runStep
  rw [if_pos h]

theorem runLoop_stuck (ctx : RunCtx) (mf : List String) (rows : List Row) :
    ∀ (n : Nat) (s : RunState), s.err.isSome → runLoop ctx mf rows n s = s := by
  intro n
  induction n with
  | zero => intro s _; rfl
  | succ k ih =>
    intro s h
    show runLoop ctx mf rows k (runStep ctx mf rows s) = s
    rw [runStep_stuck ctx mf rows s h, ih s h]

theorem runLoop_extract (ctx : RunCtx) (mf : List String) (rows : List Row) :
    ∀ (fs : List String) (s : RunState), s.err = none → mf.drop s.idx = fs →
    extractRun (runLoop ctx mf rows fs.length s)
      = (match processList (subjectOfFile ctx s.params rows) fs with
         | Except.error e => Except.error e
         | Except.ok l => Except.ok (s.subjs ++ l)) := by
  intro fs
  induction fs with
  | nil =>
    intro s h1 _
    simp [processList, runLoop, extractRun, h1]
  | cons f fs ih =>
    intro s h1 h2
    have hget : mf[s.idx]? = some f := by
      have h0 : (mf.drop s.idx)[0]? = some f := by rw [h2]; simp
      rwa [List.getElem?_drop, Nat.add_zero] at h0
    rw [List.length_cons]
    show extractRun (runLoop ctx mf rows fs.length (runStep ctx mf rows s)) = _
    cases hsf : subjectOfFile ctx s.params rows f with
    | error e =>
      have hstep : runStep ctx mf rows s = { s with err := some e } := by
        simp [runStep, h1, hget, hsf]
      rw [hstep, runLoop_stuck ctx mf rows fs.length _ (by simp)]
      simp [extractRun, processList, hsf]
    | ok st =>
      have hstep : runStep ctx mf rows s
          = { s with idx := s.idx + 1, subjs := s.subjs ++ [st] } := by
        simp [runStep, h1, hget, hsf]
      have hdrop : mf.drop (s.idx + 1) = fs := by
        have h3 : (mf.drop s.idx).drop 1 = fs := by rw [h2]; rfl
        rwa [List.drop_drop] at h3
      rw [hstep]
      rw [ih { s with idx := s.idx + 1, subjs := s.subjs ++ [st] } h1 hdrop]
      simp only [processList, hsf]
      cases processList (subjectOfFile ctx s.params rows) fs <;> simp

theorem processAll_eq_processList (ctx : RunCtx) (p : Params) (mf : List String)
    (rows : List Row) :
    processAll ctx p mf rows = processList (subjectOfFile ctx p rows) mf := by
  unfold processAll
  rw [runLoop_extract ctx mf rows mf ⟨p, 0, [], none⟩ rfl (by simp)]
  cases processList (subjectOfFile ctx p rows) mf <;> simp

theorem processList_ok {ε α β : Type} (g : α → Except ε β) :
    ∀ (fs : List α) (l : List β), processList g fs = Except.ok l →
      l.length = fs.length
      ∧ ∀ (i : Nat) (h1 : i < fs.length) (h2 : i < l.length),
          g (fs.get ⟨i, h1⟩) = Except.ok (l.get ⟨i, h2⟩) := by
  intro fs
  induction fs with
  | nil =>
    intro l h
    simp only [processList] at h
    cases h
    exact ⟨rfl, fun i h1 _ => absurd h1 (Nat.not_lt_zero i)⟩
  | cons f fs ih =>
    intro l h
    simp only [processList] at h
    split at h
    · cases h
    · rename_i b hg
      split at h
      · cases h
      · rename_i bs hrest
        cases h
        obtain ⟨hlen, hidx⟩ := ih bs hrest
        refine ⟨by simp [hlen], ?_⟩
        intro i h1 h2
        cases i with
        | zero => simpa using hg
        | succ k =>
          have hk := hidx k (by simpa using h1) (by simpa using h2)
          simpa using hk

theorem getD_map_lt {α β : Type} (f : α → β) (l : List α) (d : β) (i : Nat)
    (h : i < l.length) : (l.map f).getD i d = f (l.get ⟨i, h⟩) := by
  induction l generalizing i with
  | nil => exact absurd h (Nat.not_lt_zero i)
  | cons a as ih =>
    cases i with
    | zero => rfl
    | succ k => exact ih k (Nat.lt_of_succ_lt_succ h)

/-- Claim C10: in a successful run, every exported column is indexed by the
same subject ordering: for each index i, the subject at position i is the
processing result of matfile i, entry i of each slope column is element 0
of that very subject per-channel slope record (via `get_subject_slopes`),
and entry i of each metadata column is that same subject field. -/
theorem table_alignment (ctx : RunCtx) (p : Params) (matfiles : List String)
    (rows : List Row) (subjs : List SubjectSt)
    (h : processAll ctx p matfiles rows = Except.ok subjs) :
    subjs.length = matfiles.length
    ∧ ∀ (i : Nat) (hi : i < matfiles.length) (hs : i < subjs.length),
        subjectOfFile ctx p rows (matfiles.get ⟨i, hi⟩) = Except.ok (subjs.get ⟨i, hs⟩)
        ∧ (∀ (ch : Nat) (slope_type : String),
            (get_subject_slopes subjs ch slope_type).getD i 0
              = (slopeRecOf ((subjs.get ⟨i, hs⟩).psds.getD ch default) slope_type).getD 0 0)
        ∧ (subjs.map (fun s => Cell.s s.name)).getD i (Cell.s (""))
            = Cell.s (subjs.get ⟨i, hs⟩).name
        ∧ (subjs.map (fun s => Cell.s s.group)).getD i (Cell.s (""))
            = Cell.s (subjs.get ⟨i, hs⟩).group := by
  rw [processAll_eq_processList] at h
  obtain ⟨hlen, hidx⟩ := processList_ok (subjectOfFile ctx p rows) matfiles subjs h
  refine ⟨hlen, ?_⟩
  intro i hi hs
  refine ⟨hidx i hi hs, ?_, ?_, ?_⟩
  · intro ch slope_type
    unfold get_subject_slopes
    rw [getD_map_lt _ _ _ _ hs]
  · rw [getD_map_lt _ _ _ _ hs]
  · rw [getD_map_lt _ _ _ _ hs]

/-- Witness for C10 at a concrete one-subject run. -/
theorem table_alignment_witness :
    subjectOfFile ctxZ defaultParams rows1 ("d/S1.mat") = Except.ok subjZ := by
  have h : processAll ctxZ defaultParams mf1 rows1 = Except.ok [subjZ] := by decide
  exact ((table_alignment ctxZ defaultParams mf1 rows1 [subjZ] h).2 0
    (by decide) (by decide)).1
